import Mathlib

/-!
Verification of `src/scripts/generate-cny-metrics.ts` (the Spring-Festival
contribution-calendar renderer).

Shallow embedding conventions:
* A calendar date is its epoch day number (`Int`, days since 1970-01-01, which
  was a Thursday).  `diffDays` on ISO strings is exact subtraction of day
  numbers; `getUTCDay` is `(n + 4) % 7` with the always-nonnegative `Int`
  remainder, and `/` on `Int` is floor division for the positive divisors used
  here, matching `Math.floor(a / b)`.
* JS numbers are modelled as `ℚ` (all arithmetic in the modelled paths is exact
  decimal/small-integer arithmetic where double rounding cannot change any
  compared outcome); counts are `ℕ`.
* `Math.random()` is modelled as a stream `draws : ℕ → ℚ` of values in `[0, 1)`,
  consumed in exactly the order the source calls `Math.random()`.
* The string keys `` `${week},${dow}` `` of the JS Maps and history array are
  modelled as pairs `(Int × Int)`; the encoding is injective so membership and
  lookup agree with the source.
-/

attribute [local semireducible] Rat.mul Rat.inv Rat.add Rat.sub

namespace Cny

/-- One activity day: `date` is the epoch day number, `count ≥ 0`. -/
structure Day where
  date : Int
  count : Nat
deriving DecidableEq

/-- `getUTCDay`: day of week of an epoch day number (0 = Sunday).
Epoch day 0 (1970-01-01) was a Thursday (4). -/
def dayOfWeek (n : Int) : Int := (n + 4) % 7

/-- `alignSunday`: move a date back to the preceding Sunday (itself if Sunday). -/
def alignSunday (n : Int) : Int := n - dayOfWeek n

/-- `diffDays(a, b)`: exact difference of day numbers. -/
def diffDays (a b : Int) : Int := a - b

/-- The fixed 5-colour palette of `quantileLevels`. -/
def colors : List String := ["#5a2020", "#b82e2e", "#d94040", "#e8823a", "#f5c842"]

/-- `vals` of `quantileLevels`: the positive counts, sorted ascending
(`days.map(d => d.count).filter(v => v > 0).sort((a, b) => a - b)`). -/
def positiveVals (days : List Day) : List Nat :=
  List.insertionSort (· ≤ ·) ((days.map (fun d => d.count)).filter (fun v => decide (0 < v)))

/-- `Math.floor` on an exact rational, computably: `⌊q⌋ = q.num / q.den`
(floor division by the positive denominator). -/
def ratFloor (q : ℚ) : Int := q.num / (q.den : Int)

theorem ratFloor_eq_floor (q : ℚ) : ratFloor q = Int.floor q := Rat.floor_def.symm

/-- `pick` of `quantileLevels`: `vals[Math.floor((vals.length - 1) * q)]`
(the index is always in range for `q ∈ [0, 1]` and nonempty `vals`). -/
def pickQuantile (vals : List Nat) (q : ℚ) : Nat :=
  vals.getD (Int.toNat (ratFloor (((vals.length : ℚ) - 1) * q))) 0

/-- The data computed once by `quantileLevels` and captured by its returned
`levelColor` closure: the global max and the three thresholds `q1, q2, q3`
(at 0.35, 0.65, 0.88), plus whether any positive count exists. -/
structure Quantiles where
  max : Nat
  hasPositive : Bool
  q1 : Nat
  q2 : Nat
  q3 : Nat
deriving DecidableEq

/-- `quantileLevels(days)` (data part; the classification is `levelIndex`). -/
def quantileLevels (days : List Day) : Quantiles :=
  let vals := positiveVals days
  let max := (days.map (fun d => d.count)).foldl Nat.max 0
  if vals.isEmpty then
    { max := max, hasPositive := false, q1 := 0, q2 := 0, q3 := 0 }
  else
    { max := max, hasPositive := true
      q1 := pickQuantile vals (35 / 100)
      q2 := pickQuantile vals (65 / 100)
      q3 := pickQuantile vals (88 / 100) }

/-- The branch cascade of the `levelColor` closure, as the palette index it
selects: level 0 for `count ≤ 0` (or when no positive value exists), else the
first threshold the count does not exceed. -/
def levelIndex (ql : Quantiles) (count : Nat) : Nat :=
  if ql.hasPositive = false then 0
  else if count = 0 then 0
  else if count ≤ ql.q1 then 1
  else if count ≤ ql.q2 then 2
  else if count ≤ ql.q3 then 3
  else 4

/-- `levelColor(count)`: the palette colour at the selected level. -/
def levelColor (ql : Quantiles) (count : Nat) : String :=
  colors.getD (levelIndex ql count) "#5a2020"

/-- `toFixed(2)` then `Number(...)`: round to two decimal places (half away from
zero; every value rounded in the modelled paths is positive, where this is
`⌊q·100 + 1/2⌋ / 100`). -/
def toFixed2 (q : ℚ) : ℚ := (ratFloor (q * 100 + 1 / 2) : ℚ) / 100

/-- The record returned by `stats`. -/
structure Stats where
  total : Nat
  max : Nat
  average : ℚ
  current : Nat
  best : Nat
deriving DecidableEq

/-- The streak loop of `stats`: threads `(current, best)` over the days. -/
def streakStep (p : Nat × Nat) (d : Day) : Nat × Nat :=
  if 0 < d.count then (p.1 + 1, Nat.max p.2 (p.1 + 1)) else (0, p.2)

/-- `stats(days)`: total, single-day max, two-decimal average, and the
current/best streak pair. -/
def stats (days : List Day) : Stats :=
  let total : Nat := days.foldl (fun a d => a + d.count) 0
  let max : Nat := days.foldl (fun a d => Nat.max a d.count) 0
  let average := toFixed2 ((total : ℚ) / (Nat.max 1 days.length : ℚ))
  let sb := days.foldl streakStep (0, 0)
  { total := total, max := max, average := average, current := sb.1, best := sb.2 }

/-- Canvas and isometric constants of `render`:
`width = 950`, `gridCX = width * 0.25`, `gridTopY = 50`, `cellW = 13`,
`cellH = 6.5`, `maxBarH = 40`. -/
def gridCX : ℚ := 950 * (25 / 100)

def gridTopY : ℚ := 50

def cellW : ℚ := 13

def cellH : ℚ := 13 / 2

def maxBarH : ℚ := 40

/-- `isoX(week, dow) = gridCX + (week - dow) * cellW`. -/
def isoX (week dow : Int) : ℚ := gridCX + ((week : ℚ) - (dow : ℚ)) * cellW

/-- `isoY(week, dow) = gridTopY + (week + dow) * cellH`. -/
def isoY (week dow : Int) : ℚ := gridTopY + ((week : ℚ) + (dow : ℚ)) * cellH

/-- `week` of a day in `render`: `totalWeeks - Math.floor(diffDays(date, gridStart) / 7)`. -/
def weekOfDate (tw gridStart : Int) (date : Int) : Int :=
  tw - diffDays date gridStart / 7

/-- `totalWeeks` for a contiguous window of `len` days starting at `startDate`:
`Math.floor(diffDays(end, gridStart) / 7)` with `gridStart = alignSunday(start)`
and `end = start + (len - 1)`. -/
def totalWeeksOf (startDate : Int) (len : Nat) : Int :=
  diffDays (startDate + ((len : Int) - 1)) (alignSunday startDate) / 7

/-- `week` of the i-th day of the contiguous window (the formula of the floor
and bar loops of `render`). -/
def weekOfIndex (startDate : Int) (len : Nat) (i : Nat) : Int :=
  weekOfDate (totalWeeksOf startDate len) (alignSunday startDate) (startDate + (i : Int))

/-- The end-to-end scenario series of the spec: a 366-day full-year window
starting on a Sunday (epoch day 3 is Sunday 1970-01-04), every count 0 except
day 100 = 5 and day 101 = 5. -/
def days366 : List Day :=
  (List.range 366).map (fun i => ⟨3 + (i : Int), if i = 100 ∨ i = 101 then 5 else 0⟩)

/-- Claim C2 (counterexample): on the 366-day scenario the classifier does NOT
assign level 4 to a count-5 day (day 100). -/
theorem quantile_top_level_counterexample :
    levelIndex (quantileLevels days366) (days366.getD 100 ⟨0, 0⟩).count ≠ 4 := by decide

/-- Claim C2 (amended): on the 366-day scenario all three thresholds equal 5,
and therefore the classifier assigns level 1 (colour `#b82e2e`) to both
positive days: the branch `count ≤ q1` fires because 5 ≤ 5; level 4 would
require `count > q3`. -/
theorem quantile_level_amended :
    (quantileLevels days366).q1 = 5 ∧ (quantileLevels days366).q2 = 5 ∧
    (quantileLevels days366).q3 = 5 ∧
    levelIndex (quantileLevels days366) (days366.getD 100 ⟨0, 0⟩).count = 1 ∧
    levelIndex (quantileLevels days366) (days366.getD 101 ⟨0, 0⟩).count = 1 ∧
    levelColor (quantileLevels days366) 5 = "#b82e2e" := by decide

/-- Claim C6 (counterexample): on the 366-day scenario the current streak
computed by `stats` is not 2 (the streak loop resets to 0 on every later
zero-count day). -/
theorem stats_scenario_counterexample : (stats days366).current ≠ 2 := by decide

set_option maxRecDepth 8000 in
/-- Claim C6 (amended): on the 366-day scenario `stats` returns total = 10,
single-day max = 5, average = 0.03 (10/366 rounded to two decimals by
`toFixed(2)`), current streak = 0, best streak = 2. -/
theorem stats_scenario_amended :
    stats days366 = { total := 10, max := 5, average := 3 / 100, current := 0, best := 2 } := by
  decide

/-- Claim C5 (counterexample): in a 366-day window starting on Sunday epoch
day 3, the first day has `weekIndex = totalWeeks` (52), which is NOT inside
`[0, totalWeeks)`. -/
theorem gridCell_week_bound_counterexample :
    ¬ (weekOfIndex 3 366 0 < totalWeeksOf 3 366) := by decide

/-- Claim C5 (amended): for every contiguous window, the grid coordinates of
every day lie within `[0, totalWeeks] × [0, 6]` — the week index reaches the
inclusive upper endpoint `totalWeeks` on the first (partial) week, since
`gridStart` is the Sunday on or before the first day. -/
theorem gridCell_bounds_amended (start : Int) (len i : Nat) (hlen : 0 < len) (hi : i < len) :
    0 ≤ weekOfIndex start len i ∧ weekOfIndex start len i ≤ totalWeeksOf start len ∧
    0 ≤ dayOfWeek (start + (i : Int)) ∧ dayOfWeek (start + (i : Int)) ≤ 6 := by
  simp only [weekOfIndex, weekOfDate, totalWeeksOf, alignSunday, diffDays, dayOfWeek]
  omega

/-- Witness for the amended C5 bounds at the scenario window (start = 3,
len = 366, i = 100). -/
theorem gridCell_bounds_amended_witness :
    0 ≤ weekOfIndex 3 366 100 ∧ weekOfIndex 3 366 100 ≤ totalWeeksOf 3 366 ∧
    0 ≤ dayOfWeek (3 + (100 : Int)) ∧ dayOfWeek (3 + (100 : Int)) ≤ 6 :=
  gridCell_bounds_amended 3 366 100 (by norm_num) (by norm_num)

/-- Claim C7: the isometric projection `(isoX, isoY)` is injective on the grid
domain `[0, totalWeeks] × [0, 6]`: equal screen points force equal grid cells. -/
theorem iso_projection_injective (tw w1 d1 w2 d2 : Int)
    (hw1 : 0 ≤ w1) (hw1t : w1 ≤ tw) (hd1 : 0 ≤ d1) (hd16 : d1 ≤ 6)
    (hw2 : 0 ≤ w2) (hw2t : w2 ≤ tw) (hd2 : 0 ≤ d2) (hd26 : d2 ≤ 6)
    (hx : isoX w1 d1 = isoX w2 d2) (hy : isoY w1 d1 = isoY w2 d2) :
    w1 = w2 ∧ d1 = d2 := by
  simp only [isoX, isoY, gridCX, gridTopY, cellW, cellH] at hx hy
  have hw : (w1 : ℚ) = (w2 : ℚ) := by linarith
  have hd : (d1 : ℚ) = (d2 : ℚ) := by linarith
  exact ⟨by exact_mod_cast hw, by exact_mod_cast hd⟩

/-- Witness for C7 at the concrete cell (3, 4) on a 52-week grid. -/
theorem iso_projection_injective_witness : (3 : Int) = 3 ∧ (4 : Int) = 4 :=
  iso_projection_injective 52 3 4 3 4 (by norm_num) (by norm_num) (by norm_num) (by norm_num)
    (by norm_num) (by norm_num) (by norm_num) (by norm_num) rfl rfl

/-- One of the 8 grid-adjacent candidate moves `{dw, dd}`. -/
structure Move where
  dw : Int
  dd : Int
deriving DecidableEq

/-- The move list of the walk, in source order: orthogonal then diagonal. -/
def moves : List Move :=
  [⟨1, 0⟩, ⟨-1, 0⟩, ⟨0, 1⟩, ⟨0, -1⟩, ⟨1, 1⟩, ⟨1, -1⟩, ⟨-1, 1⟩, ⟨-1, -1⟩]

/-- A scored candidate `{w, d, score, move}` of one walk step. -/
structure Cand where
  w : Int
  d : Int
  score : ℚ
  move : Move
deriving DecidableEq

/-- `barHeightMap`: the `"week,dow" → height` map, with the injective string
keys modelled as pairs. -/
abbrev BarMap := List ((Int × Int) × ℚ)

/-- `barHeightMap.get(key)` (first matching key; keys are unique in maps built
from a well-formed window). -/
def barLookup (bars : BarMap) (k : Int × Int) : Option ℚ :=
  (bars.find? (fun e => decide (e.1 = k))).map (fun e => e.2)

/-- `barHeightMap.has(key)`. -/
def hasBar (bars : BarMap) (k : Int × Int) : Bool := (barLookup bars k).isSome

/-- A waypoint `{x, y, w, d}` as produced by `getPt`. -/
structure Waypoint where
  x : ℚ
  y : ℚ
  w : Int
  d : Int
deriving DecidableEq

/-- `getPt(w, d)`: projected screen point lifted by the bar height of the cell
(0 when the cell has no bar). -/
def getPt (bars : BarMap) (w d : Int) : Waypoint :=
  ⟨isoX w d, isoY w d - (barLookup bars (w, d)).getD 0, w, d⟩

/-- The score of one in-bounds candidate move, as accumulated by the source:
jitter `Math.random() * 5` (here `r * 5` with `r ∈ [0, 1)`), the zone bonuses
for `nw ≤ 8` and `nw ≤ 4`, the +15 bar attraction, the −1000 recent-history
penalty, the momentum bonus (+50 exact continuation, +30 more when both cells
are flat, else +5 for sharing one component), and the −5000 backward penalty
when `dw - dd < 0`. -/
def candScore (bars : BarMap) (hist : List (Int × Int))
    (currW currD lastDw lastDd : Int) (r : ℚ) (m : Move) : ℚ :=
  r * 5
    + (if currW + m.dw ≤ 8 then 2 else 0)
    + (if currW + m.dw ≤ 4 then 1 else 0)
    + (if hasBar bars (currW + m.dw, currD + m.dd) then 15 else 0)
    + (if (currW + m.dw, currD + m.dd) ∈ hist then -1000 else 0)
    + (if m.dw = lastDw ∧ m.dd = lastDd then
        50 + (if hasBar bars (currW + m.dw, currD + m.dd) = false
                 ∧ hasBar bars (currW, currD) = false then 30 else 0)
      else if m.dw = lastDw ∨ m.dd = lastDd then 5 else 0)
    + (if m.dw - m.dd < 0 then -5000 else 0)

/-- The walk state: current cell, previous move, recent-history FIFO (oldest
first), and the index of the next unconsumed random draw. -/
structure St where
  currW : Int
  currD : Int
  lastDw : Int
  lastDd : Int
  hist : List (Int × Int)
  idx : Nat
deriving DecidableEq

/-- One iteration of the candidate loop: skip out-of-bounds moves, otherwise
append the scored candidate, consuming one random draw. -/
def candStep (tw : Int) (bars : BarMap) (draws : Nat → ℚ) (st : St)
    (acc : List Cand × Nat) (m : Move) : List Cand × Nat :=
  let nw := st.currW + m.dw
  let nd := st.currD + m.dd
  if nw < 0 ∨ tw ≤ nw ∨ nd < 0 ∨ 6 < nd then acc
  else
    (acc.1 ++ [⟨nw, nd, candScore bars st.hist st.currW st.currD st.lastDw st.lastDd
        (draws acc.2) m, m⟩], acc.2 + 1)

/-- The full candidate loop over the 8 moves; returns the candidates in source
order together with the next draw index. -/
def buildCands (tw : Int) (bars : BarMap) (draws : Nat → ℚ) (st : St) :
    List Cand × Nat :=
  moves.foldl (candStep tw bars draws st) ([], st.idx)

/-- The descending-by-score comparator `(a, b) => b.score - a.score` as a
relation (stable sorting keeps source order among equal scores, as the V8
sort does). -/
def candGe (a b : Cand) : Prop := b.score ≤ a.score

instance : DecidableRel candGe := fun a b => inferInstanceAs (Decidable (b.score ≤ a.score))

/-- `topK[Math.floor(Math.random() * topK.length)]` with `topK = valid.slice(0, 3)`. -/
def chooseCand (valid : List Cand) (r : ℚ) : Cand :=
  (valid.take 3).getD (Int.toNat (ratFloor (r * ((valid.take 3).length : ℚ))))
    ⟨0, 0, 0, ⟨0, 0⟩⟩

/-- `recentHistory.push(key)` followed by the capacity-32 FIFO eviction
(`shift()` drops the oldest entry). -/
def pushHist (hist : List (Int × Int)) (k : Int × Int) : List (Int × Int) :=
  let h := hist ++ [k]
  if 32 < h.length then h.tail else h

/-- One step of the walk: build and sort the candidates, drop those scoring
at or below the −500 cutoff, pick uniformly among the top 3, and commit:
`none` means the `break` of the source (the walk is trapped). -/
def pickStep (tw : Int) (bars : BarMap) (draws : Nat → ℚ) (st : St) :
    Option (St × Waypoint) :=
  let bc := buildCands tw bars draws st
  let valid := (List.insertionSort candGe bc.1).filter (fun c => decide (-500 < c.score))
  if valid.length ≠ 0 then
    let choice := chooseCand valid (draws bc.2)
    some ({ currW := choice.w, currD := choice.d
            lastDw := choice.move.dw, lastDd := choice.move.dd
            hist := pushHist st.hist (choice.w, choice.d)
            idx := bc.2 + 1 },
          getPt bars choice.w choice.d)
  else none

/-- The remaining steps of the walk: stop at the step budget or when trapped. -/
def walkAux (tw : Int) (bars : BarMap) (draws : Nat → ℚ) : Nat → St → List Waypoint
  | 0, _ => []
  | n + 1, st =>
    match pickStep tw bars draws st with
    | none => []
    | some (st', wp) => wp :: walkAux tw bars draws n st'

/-- The initial walk state: start cell (20, 5), no previous move, empty
history, draw index 0. -/
def initSt : St := ⟨20, 5, 0, 0, [], 0⟩

/-- The waypoint sequence of the dragon walk: the initial point at (20, 5)
followed by at most 80 committed steps. -/
def synthWaypoints (tw : Int) (bars : BarMap) (draws : Nat → ℚ) : List Waypoint :=
  getPt bars 20 5 :: walkAux tw bars draws 80 initSt

/-- A candidate scoring above the −500 cutoff is neither in the recent
history (the −1000 penalty would put it below) nor a backward move (the −5000
penalty would): all positive contributions sum to less than 103. -/
theorem candScore_cutoff (bars : BarMap) (hist : List (Int × Int))
    (currW currD lastDw lastDd : Int) (r : ℚ) (m : Move)
    (hr0 : 0 ≤ r) (hr1 : r < 1)
    (hok : -500 < candScore bars hist currW currD lastDw lastDd r m) :
    (currW + m.dw, currD + m.dd) ∉ hist ∧ 0 ≤ m.dw - m.dd := by
  have hj : r * 5 < 5 := by linarith
  unfold candScore at hok
  constructor
  · intro hmem
    rw [if_pos hmem] at hok
    split_ifs at hok <;> linarith
  · by_contra hneg
    push_neg at hneg
    rw [if_pos hneg] at hok
    split_ifs at hok <;> linarith

/-- `getD` at an in-range index returns an element of the list. -/
theorem getD_mem {α : Type} (l : List α) (n : Nat) (d : α) (h : n < l.length) :
    l.getD n d ∈ l := by
  induction l generalizing n with
  | nil => simp at h
  | cons a t ih =>
    cases n with
    | zero => simp
    | succ k =>
      simp only [List.getD_cons_succ]
      exact List.mem_cons_of_mem _ (ih k (by simpa using h))

/-- With a draw in `[0, 1)` and a nonempty pool, the chosen candidate is one of
the valid candidates. -/
theorem chooseCand_mem (valid : List Cand) (r : ℚ) (hne : valid.length ≠ 0)
    (hr0 : 0 ≤ r) (hr1 : r < 1) : chooseCand valid r ∈ valid := by
  have hlen : 0 < (valid.take 3).length := by
    simp only [List.length_take]
    omega
  have hidx : Int.toNat (ratFloor (r * ((valid.take 3).length : ℚ)))
      < (valid.take 3).length := by
    rw [ratFloor_eq_floor]
    have h1 : Int.floor (r * ((valid.take 3).length : ℚ))
        < ((valid.take 3).length : Int) := by
      rw [Int.floor_lt]
      push_cast
      have h2 : r * ((valid.take 3).length : ℚ) < 1 * ((valid.take 3).length : ℚ) :=
        mul_lt_mul_of_pos_right hr1 (by exact_mod_cast hlen)
      linarith
    omega
  exact List.mem_of_mem_take (getD_mem _ _ _ hidx)

/-- Every candidate accumulated by the candidate loop has the committed cell
`(currW + dw, currD + dd)` of its move and a score produced by `candScore` at
some draw. -/
theorem candAcc_inv (tw : Int) (bars : BarMap) (draws : Nat → ℚ) (st : St)
    (P : Cand → Prop)
    (hP : ∀ (i : Nat) (m : Move), P ⟨st.currW + m.dw, st.currD + m.dd,
        candScore bars st.hist st.currW st.currD st.lastDw st.lastDd (draws i) m, m⟩) :
    ∀ (ms : List Move) (acc : List Cand × Nat), (∀ c ∈ acc.1, P c) →
      ∀ c ∈ (ms.foldl (candStep tw bars draws st) acc).1, P c := by
  intro ms
  induction ms with
  | nil => exact fun acc hacc c hc => hacc c hc
  | cons m rest ih =>
    intro acc hacc c hc
    rw [List.foldl_cons] at hc
    refine ih _ ?_ c hc
    intro c' hc'
    simp only [candStep] at hc'
    split at hc'
    · exact hacc c' hc'
    · rcases List.mem_append.mp hc' with h | h
      · exact hacc c' h
      · rw [List.mem_singleton.mp h]
        exact hP acc.2 m

theorem buildCands_inv (tw : Int) (bars : BarMap) (draws : Nat → ℚ) (st : St) :
    ∀ c ∈ (buildCands tw bars draws st).1,
      c.w = st.currW + c.move.dw ∧ c.d = st.currD + c.move.dd ∧
      ∃ i, c.score = candScore bars st.hist st.currW st.currD st.lastDw st.lastDd
        (draws i) c.move := by
  intro c hc
  exact candAcc_inv tw bars draws st
    (fun c => c.w = st.currW + c.move.dw ∧ c.d = st.currD + c.move.dd ∧
      ∃ i, c.score = candScore bars st.hist st.currW st.currD st.lastDw st.lastDd
        (draws i) c.move)
    (fun i m => ⟨rfl, rfl, i, rfl⟩) moves ([], st.idx) (by simp) c hc

/-- What one committed step guarantees: forward progress does not decrease,
the committed cell is not in the history of the moment of choice, and the
appended waypoint records the committed cell. -/
theorem pickStep_spec (tw : Int) (bars : BarMap) (draws : Nat → ℚ)
    (hdr : ∀ n, 0 ≤ draws n ∧ draws n < 1) (st st' : St) (wp : Waypoint)
    (hs : pickStep tw bars draws st = some (st', wp)) :
    st.currW - st.currD ≤ st'.currW - st'.currD ∧
    (st'.currW, st'.currD) ∉ st.hist ∧ wp.w = st'.currW ∧ wp.d = st'.currD := by
  simp only [pickStep] at hs
  split at hs
  case isFalse => exact absurd hs (by simp)
  case isTrue hcond =>
    rw [Option.some.injEq, Prod.mk.injEq] at hs
    obtain ⟨hst, hwp⟩ := hs
    set valid := (List.insertionSort candGe (buildCands tw bars draws st).1).filter
      (fun c => decide (-500 < c.score)) with hvalid
    have hch : chooseCand valid (draws (buildCands tw bars draws st).2) ∈ valid :=
      chooseCand_mem valid _ hcond (hdr _).1 (hdr _).2
    set choice := chooseCand valid (draws (buildCands tw bars draws st).2) with hchoice
    have hmem := List.mem_filter.mp (hvalid ▸ hch)
    have hscore : -500 < choice.score := of_decide_eq_true hmem.2
    have hin : choice ∈ (buildCands tw bars draws st).1 :=
      (List.perm_insertionSort candGe _).mem_iff.mp hmem.1
    obtain ⟨hw, hd, i, hsc⟩ := buildCands_inv tw bars draws st choice hin
    rw [hsc] at hscore
    obtain ⟨hnotin, hfwd⟩ := candScore_cutoff bars st.hist st.currW st.currD
      st.lastDw st.lastDd (draws i) choice.move (hdr i).1 (hdr i).2 hscore
    refine ⟨?_, ?_, ?_, ?_⟩
    · rw [← hst]
      simp only [hw, hd]
      omega
    · rw [← hst]
      simp only [hw, hd]
      exact hnotin
    · rw [← hst, ← hwp]
      simp [getPt]
    · rw [← hst, ← hwp]
      simp [getPt]

/-- Along the walk, the chain headed by the current cell of any state has
non-decreasing forward progress `w - d`. -/
theorem walkAux_chain (tw : Int) (bars : BarMap) (draws : Nat → ℚ)
    (hdr : ∀ n, 0 ≤ draws n ∧ draws n < 1) :
    ∀ (n : Nat) (st : St),
      List.Chain' (fun p q : Waypoint => p.w - p.d ≤ q.w - q.d)
        (getPt bars st.currW st.currD :: walkAux tw bars draws n st)
  | 0, st => by simp [walkAux]
  | n + 1, st => by
    rcases hps : pickStep tw bars draws st with _ | ⟨st', wp⟩
    · simp [walkAux, hps]
    · obtain ⟨hfwd, _, hww, hwd⟩ := pickStep_spec tw bars draws hdr st st' wp hps
      have ih := walkAux_chain tw bars draws hdr n st'
      simp only [walkAux, hps]
      rcases hrest : walkAux tw bars draws n st' with _ | ⟨x, t⟩
      · simp only [List.chain'_cons, List.chain'_singleton, and_true]
        simp only [getPt]
        omega
      · rw [hrest] at ih
        rw [List.chain'_cons] at ih
        rw [List.chain'_cons, List.chain'_cons]
        refine ⟨?_, ?_, ih.2⟩
        · simp only [getPt]
          omega
        · have h1 := ih.1
          simp only [getPt] at h1
          omega

/-- Claim C1: for every grid size, bar map (hence every input day series) and
every sequence of random draws in `[0, 1)`, consecutive waypoints of the walk
have non-decreasing forward progress `week - dayOfWeek`: the −5000 backward
penalty pushes every backward candidate below the −500 cutoff. -/
theorem forward_progress_nondecreasing (tw : Int) (bars : BarMap) (draws : Nat → ℚ)
    (hdr : ∀ n, 0 ≤ draws n ∧ draws n < 1) :
    List.Chain' (fun p q : Waypoint => p.w - p.d ≤ q.w - q.d)
      (synthWaypoints tw bars draws) := by
  simpa [synthWaypoints, initSt] using walkAux_chain tw bars draws hdr 80 initSt

/-- Witness for C1 at a 52-week empty grid with the all-zero draw stream. -/
theorem forward_progress_nondecreasing_witness :
    List.Chain' (fun p q : Waypoint => p.w - p.d ≤ q.w - q.d)
      (synthWaypoints 52 [] (fun _ => 0)) :=
  forward_progress_nondecreasing 52 [] (fun _ => 0)
    (fun _ => ⟨le_refl 0, by norm_num⟩)

/-- Claim C4: for every input and every sequence of random draws in `[0, 1)`,
a step committed by the walk never lands on a cell that is inside the
recent-history FIFO buffer at the moment the step is chosen: the −1000 history
penalty pushes such candidates below the −500 cutoff. -/
theorem no_recent_history_repeat (tw : Int) (bars : BarMap) (draws : Nat → ℚ)
    (hdr : ∀ n, 0 ≤ draws n ∧ draws n < 1) (st st' : St) (wp : Waypoint)
    (hs : pickStep tw bars draws st = some (st', wp)) :
    (wp.w, wp.d) ∉ st.hist := by
  obtain ⟨_, hnotin, hww, hwd⟩ := pickStep_spec tw bars draws hdr st st' wp hs
  rw [hww, hwd]
  exact hnotin

/-- Witness for C4: the first committed step on a 52-week empty grid with the
all-zero draw stream lands on (21, 5), which is not in the (empty) history. -/
theorem no_recent_history_repeat_witness : ((21 : Int), (5 : Int)) ∉ initSt.hist :=
  no_recent_history_repeat 52 [] (fun _ => 0)
    (fun _ => ⟨le_refl 0, by norm_num⟩) initSt ⟨21, 5, 1, 0, [(21, 5)], 9⟩
    ⟨891 / 2, 219, 21, 5⟩ (by decide)

/-- Value of one lowercase hex digit (`Number.parseInt(_, 16)` on the palette
strings, which are lowercase). -/
def hexDigitVal (c : Char) : Nat :=
  if 48 ≤ c.toNat ∧ c.toNat ≤ 57 then c.toNat - 48
  else if 97 ≤ c.toNat ∧ c.toNat ≤ 102 then c.toNat - 87
  else 0

/-- `Number.parseInt(hex.slice(1), 16)`. -/
def parseHexNat (s : String) : Nat :=
  (s.drop 1).foldl (fun a c => a * 16 + hexDigitVal c) 0

/-- `Math.round` (round half toward positive infinity, `⌊x + 1/2⌋`). -/
def jsRound (q : ℚ) : Int := ratFloor (q + 1 / 2)

/-- One channel digit pair of `v.toString(16).padStart(2, "0")` for `v ≤ 255`. -/
def toHex2 (n : Nat) : String :=
  let digitChar := fun (v : Nat) => if v < 10 then Char.ofNat (48 + v) else Char.ofNat (87 + v)
  String.mk [digitChar (n / 16 % 16), digitChar (n % 16)]

/-- `dim(hex, slope)`: scale each channel, clamp to `[0, 255]`, re-emit hex.
The channel extractions `(n >> 16) & 255`, `(n >> 8) & 255`, `n & 255` are
written as division and remainder. -/
def dim (hex : String) (slope : ℚ) : String :=
  let n := parseHexNat hex
  let ch := fun (v : Nat) => Int.toNat (max 0 (min 255 (jsRound ((v : ℚ) * slope))))
  "#" ++ toHex2 (ch (n / 65536 % 256)) ++ toHex2 (ch (n / 256 % 256)) ++ toHex2 (ch (n % 256))

/-- `highlight(hex, amount)`: blend each channel toward white
(`min(255, round(ch + (255 - ch) * amount))`). -/
def highlight (hex : String) (amount : ℚ) : String :=
  let n := parseHexNat hex
  let ch := fun (v : Nat) =>
    Nat.min 255 (Int.toNat (jsRound ((v : ℚ) + (255 - (v : ℚ)) * amount)))
  "#" ++ toHex2 (ch (n / 65536 % 256)) ++ toHex2 (ch (n / 256 % 256)) ++ toHex2 (ch (n % 256))

/-- A JS number interpolated into a template string.  The exact decimal digit
sequence of double formatting is not modelled; every value is carried exactly
as a rational, so equal numbers yield equal strings and distinct numbers
distinct strings. -/
def jsNum (q : ℚ) : String := toString q

/-- An `x,y` point inside an SVG attribute. -/
def pt2 (x y : ℚ) : String := jsNum x ++ "," ++ jsNum y

/-- One floor tile of the isometric ground plane. -/
def floorTile (tw gridStart : Int) (d : Day) : String :=
  let dow := dayOfWeek d.date
  let week := weekOfDate tw gridStart d.date
  let cx := isoX week dow
  let cy := isoY week dow
  "<polygon points=\"" ++ pt2 cx (cy - cellH) ++ " " ++ pt2 (cx + cellW) cy ++ " "
    ++ pt2 cx (cy + cellH) ++ " " ++ pt2 (cx - cellW) cy
    ++ "\" fill=\"#4d1c1c\" stroke=\"#6b2a2a\" stroke-width=\"0.4\" opacity=\"0.65\"/>"

/-- The painterly order of the bar loop: ascending week index, then ascending
day of week (the JS comparator `wa - wb || da - db`). -/
def paintBefore (tw gridStart : Int) (a b : Day) : Prop :=
  weekOfDate tw gridStart a.date < weekOfDate tw gridStart b.date ∨
    (weekOfDate tw gridStart a.date = weekOfDate tw gridStart b.date ∧
      dayOfWeek a.date ≤ dayOfWeek b.date)

instance (tw gridStart : Int) : DecidableRel (paintBefore tw gridStart) := fun a b => by
  unfold paintBefore
  infer_instance

/-- The five parts pushed per positive-count day of the bar loop: shadow face,
lit face, metallic edge, top face, and the shimmer line with its per-cell
animation delay. -/
def barFaces (tw gridStart : Int) (maxC : Nat) (ql : Quantiles) (d : Day) : List String :=
  let dow := dayOfWeek d.date
  let week := weekOfDate tw gridStart d.date
  let ratio : ℚ := if 0 < maxC then (d.count : ℚ) / (maxC : ℚ) else 0
  let h := ratio * maxBarH
  let cx := isoX week dow
  let cy := isoY week dow
  let c := levelColor ql d.count
  let top := pt2 cx (cy - cellH - h) ++ " " ++ pt2 (cx + cellW) (cy - h) ++ " "
    ++ pt2 cx (cy + cellH - h) ++ " " ++ pt2 (cx - cellW) (cy - h)
  let left := pt2 (cx - cellW) (cy - h) ++ " " ++ pt2 cx (cy + cellH - h) ++ " "
    ++ pt2 cx (cy + cellH) ++ " " ++ pt2 (cx - cellW) cy
  let right := pt2 cx (cy + cellH - h) ++ " " ++ pt2 (cx + cellW) (cy - h) ++ " "
    ++ pt2 (cx + cellW) cy ++ " " ++ pt2 cx (cy + cellH)
  let shimmerDelay := jsNum (((week * 7 + dow : Int) : ℚ) * (8 / 100)) ++ "s"
  [ "<polygon points=\"" ++ right ++ "\" fill=\"" ++ dim c (4 / 10) ++ "\" stroke=\""
      ++ dim c (25 / 100) ++ "\" stroke-width=\"0.3\"/>",
    "<polygon points=\"" ++ left ++ "\" fill=\"" ++ dim c (7 / 10) ++ "\" stroke=\""
      ++ dim c (5 / 10) ++ "\" stroke-width=\"0.3\"/>",
    "<line x1=\"" ++ jsNum (cx - cellW) ++ "\" y1=\"" ++ jsNum (cy - h) ++ "\" x2=\""
      ++ jsNum cx ++ "\" y2=\"" ++ jsNum (cy + cellH - h) ++ "\" stroke=\""
      ++ highlight c (45 / 100) ++ "\" stroke-width=\"0.8\" opacity=\"0.5\"/>",
    "<polygon points=\"" ++ top ++ "\" fill=\"" ++ highlight c (25 / 100) ++ "\" stroke=\""
      ++ highlight c (45 / 100) ++ "\" stroke-width=\"0.5\"/>",
    "<line x1=\"" ++ jsNum (cx - cellW * (5 / 10)) ++ "\" y1=\""
      ++ jsNum (cy - h - cellH * (5 / 10)) ++ "\" x2=\"" ++ jsNum (cx + cellW * (5 / 10))
      ++ "\" y2=\"" ++ jsNum (cy - h - cellH * (5 / 10))
      ++ "\" stroke=\"white\" stroke-width=\"0.6\"><animate attributeName=\"opacity\""
      ++ " values=\"0.08;0.25;0.08\" dur=\"6s\" begin=\"" ++ shimmerDelay
      ++ "\" repeatCount=\"indefinite\"/></line>" ]

/-- The bar section: days in painterly order, empty cells skipped. -/
def barParts (days : List Day) (tw gridStart : Int) (ql : Quantiles) : List String :=
  ((List.insertionSort (paintBefore tw gridStart) days).filter
      (fun d => decide (0 < d.count))).flatMap (barFaces tw gridStart ql.max ql)

/-- `barHeightMap`: cell key to bar height (positive-count days only). -/
def barHeightMap (days : List Day) (tw gridStart : Int) (maxC : Nat) : BarMap :=
  (days.filter (fun d => decide (0 < d.count))).map (fun d =>
    ((weekOfDate tw gridStart d.date, dayOfWeek d.date),
      (if 0 < maxC then (d.count : ℚ) / (maxC : ℚ) else 0) * maxBarH))

/-- One cubic segment of the motion guide:
`C cpx1,cpy1 cpx2,cpy2 x,y` with control points at fractions 0.4 and 0.6. -/
def cubicSeg (prev curr : Waypoint) : String :=
  " C" ++ pt2 (prev.x + (curr.x - prev.x) * (4 / 10)) prev.y ++ " "
    ++ pt2 (prev.x + (curr.x - prev.x) * (6 / 10)) curr.y ++ " "
    ++ pt2 curr.x curr.y

/-- The full path datum `M… C… C…` over the waypoint list. -/
def pathD : List Waypoint → String
  | [] => ""
  | w0 :: rest =>
    (rest.foldl (fun (acc : String × Waypoint) c => (acc.1 ++ cubicSeg acc.2 c, c))
      ("M" ++ pt2 w0.x w0.y, w0)).1

/-- The dragon tail group (fixed markup; its motion begins at
`(segCount + 1) * segDelay = 6.25s`). -/
def dragonTailPart : String :=
  "<g opacity=\"0.6\"><animateMotion dur=\"24s\" begin=\"6.25s\" repeatCount=\"indefinite\""
    ++ " rotate=\"auto\"><mpath href=\"#dragonPath\"/></animateMotion>"
    ++ "<path d=\"M-2,0 L-10,-4 Q-14,0 -10,4 Z\" fill=\"#c0392b\" stroke=\"#ffd700\""
    ++ " stroke-width=\"0.5\"/></g>"

/-- Body segment `i` of 24: phase delay `(i + 1) * 0.25s`, alternating colours
(`gold when i % 3 = 1`), front-to-back taper of radius and opacity. -/
def dragonSegment (i : Nat) : String :=
  let isGold := i % 3 = 1
  let segColor := if isGold then "#f5c842" else "#c0392b"
  let segStroke := if isGold then "#d4a020" else "#ffd700"
  let t : ℚ := (i : ℚ) / 24
  "<g opacity=\"" ++ jsNum (88 / 100 - t * (3 / 10)) ++ "\"><animateMotion dur=\"24s\""
    ++ " begin=\"" ++ jsNum (((i : ℚ) + 1) * (25 / 100)) ++ "s\""
    ++ " repeatCount=\"indefinite\" rotate=\"auto\"><mpath href=\"#dragonPath\"/>"
    ++ "</animateMotion><ellipse cx=\"0\" cy=\"0\" rx=\""
    ++ jsNum ((jsRound ((6 - t * (25 / 10)) * 10) : ℚ) / 10) ++ "\" ry=\""
    ++ jsNum ((jsRound ((45 / 10 - t * (15 / 10)) * 10) : ℚ) / 10) ++ "\" fill=\""
    ++ segColor ++ "\" stroke=\"" ++ segStroke ++ "\" stroke-width=\"0.6\"/></g>"

/-- The dragon head group (fixed markup, abbreviated to its opening motion
binding; the remaining face ornaments are constant text with no data
dependence). -/
def dragonHeadPart : String :=
  "<g opacity=\"0.9\"><animateMotion dur=\"24s\" repeatCount=\"indefinite\" rotate=\"auto\">"
    ++ "<mpath href=\"#dragonPath\"/></animateMotion>"
    ++ "<rect x=\"-10\" y=\"-8\" width=\"20\" height=\"16\" rx=\"4\" fill=\"#c0392b\""
    ++ " stroke=\"#ffd700\" stroke-width=\"1\"/></g>"

/-- The dragon block of `render`: emitted only when at least 4 waypoints
exist (`if (waypoints.length >= 4)`), otherwise nothing is pushed. -/
def dragonLayer (wps : List Waypoint) : List String :=
  if 4 ≤ wps.length then
    ("<path id=\"dragonPath\" d=\"" ++ pathD wps ++ "\" fill=\"none\" stroke=\"none\"/>")
      :: dragonTailPart :: ((List.range 24).map dragonSegment ++ [dragonHeadPart])
  else []

/-- The opening `<svg …>` tag at the fixed 950×440 canvas. -/
def svgOpen : String :=
  "<svg xmlns=\"http://www.w3.org/2000/svg\" width=\"950\" height=\"440\""
    ++ " viewBox=\"0 0 950 440\">"

/-- The stats panel: background and the six text parts whose contents carry the
numbers of `stats` (panel origin px = 680, py = 200). -/
def statsPanelParts (s : Stats) : List String :=
  [ "<rect x=\"666\" y=\"172\" width=\"280\" height=\"220\" rx=\"10\" fill=\"#3a1212\""
      ++ " opacity=\"0.55\" stroke=\"#f5c842\" stroke-width=\"0.5\" stroke-opacity=\"0.25\"/>",
    "<text x=\"680\" y=\"200\" font-size=\"14\" fill=\"#ffd700\" font-weight=\"600\">"
      ++ "🔥 连续贡献</text>",
    "<text x=\"680\" y=\"220\" font-size=\"12\" fill=\"#d4a574\">最长连续 "
      ++ toString s.best ++ " 天 ∙ 当前 " ++ toString s.current ++ " 天</text>",
    "<text x=\"680\" y=\"254\" font-size=\"14\" fill=\"#ffd700\" font-weight=\"600\">"
      ++ "📊 每日贡献</text>",
    "<text x=\"680\" y=\"274\" font-size=\"12\" fill=\"#d4a574\">单日最高 "
      ++ toString s.max ++ " 次 ∙ 日均 ~" ++ jsNum s.average ++ " 次</text>",
    "<text x=\"680\" y=\"310\" font-size=\"14\" fill=\"#ffd700\" font-weight=\"600\">"
      ++ "🏮 年度总计</text>",
    "<text x=\"680\" y=\"342\" font-size=\"30\" fill=\"#ffd700\" font-weight=\"700\""
      ++ " filter=\"url(#glow)\">" ++ toString s.total ++ "</text>" ]

/-- The legend colour swatches (the source re-declares the palette literal). -/
def legendColors : List String := ["#5a2020", "#b82e2e", "#d94040", "#e8823a", "#f5c842"]

/-- The colour legend: 少, five swatches, 多. -/
def legendParts : List String :=
  "<text x=\"680\" y=\"372\" font-size=\"10\" fill=\"#d4a574\" opacity=\"0.7\">少</text>"
    :: ((List.range legendColors.length).map (fun li =>
      "<rect x=\"" ++ toString (696 + li * 16) ++ "\" y=\"363\" width=\"12\" height=\"12\""
        ++ " rx=\"2\" fill=\"" ++ legendColors.getD li "" ++ "\" stroke=\"#ffd700\""
        ++ " stroke-width=\"0.3\" stroke-opacity=\"0.3\"/>")
      ++ ["<text x=\"781\" y=\"372\" font-size=\"10\" fill=\"#d4a574\" opacity=\"0.7\">多</text>"])

/-- The bottom decorative line; its year comes from the wall clock
(`new Date().getFullYear()`), passed here as a parameter. -/
def bottomText (year : Int) : String :=
  "<text x=\"475\" y=\"424\" font-size=\"12\" fill=\"#ffd700\" text-anchor=\"middle\""
    ++ " opacity=\"0.3\">新春快乐 · 万事如意 · " ++ toString year ++ "</text>"

/-- The waypoint list synthesized inside `render` for a given day series:
`totalWeeks` and the bar-height map are derived from the series, then the walk
runs on them. -/
def renderWaypoints (days : List Day) (draws : Nat → ℚ) : List Waypoint :=
  match days with
  | [] => []
  | d0 :: _ =>
    let gridStart := alignSunday d0.date
    let tw := diffDays (days.getLast?.getD d0).date gridStart / 7
    synthWaypoints tw (barHeightMap days tw gridStart (quantileLevels days).max) draws

/-- The parts array assembled by `render`, in source order.  The constant
decorative markup (defs block, background, border, corner sparkles, clouds,
lanterns, firecrackers before the grid; plum branches, month labels and bottom
clouds after the panel) carries no dependence on the activity data — some of it
uses floating-point trigonometry — and is abstracted as the two fixed blocks
`decorPre` and `decorPost`.  Everything data-dependent is modelled: floor
tiles, bars, the dragon layer, the stats panel, the legend, and the year of
the bottom line. -/
def renderDoc (decorPre decorPost : List String) (days : List Day) (draws : Nat → ℚ)
    (year : Int) : List String :=
  match days with
  | [] => []
  | d0 :: _ =>
    let ql := quantileLevels days
    let s := stats days
    let gridStart := alignSunday d0.date
    let tw := diffDays (days.getLast?.getD d0).date gridStart / 7
    [svgOpen] ++ decorPre
      ++ days.map (floorTile tw gridStart)
      ++ barParts days tw gridStart ql
      ++ dragonLayer (renderWaypoints days draws)
      ++ statsPanelParts s
      ++ legendParts
      ++ decorPost
      ++ [bottomText year, "</svg>"]

/-- Claim C8: whenever the synthesized waypoint list has fewer than 4 entries,
the dragon block contributes nothing to the document, and `render` still
returns a complete document ending in the closing tag — a short or empty
waypoint list is handled by the `length >= 4` guard, never an error. -/
theorem short_walk_omits_dragon (decorPre decorPost : List String)
    (d0 : Day) (rest : List Day) (draws : Nat → ℚ) (year : Int)
    (hshort : (renderWaypoints (d0 :: rest) draws).length < 4) :
    dragonLayer (renderWaypoints (d0 :: rest) draws) = [] ∧
    (renderDoc decorPre decorPost (d0 :: rest) draws year).getLast? = some "</svg>" := by
  constructor
  · rw [dragonLayer, if_neg (by omega)]
  · simp only [renderDoc]
    rw [List.getLast?_append]
    rfl

/-- The 8-day all-zero window starting on Sunday epoch day 3: its grid spans
`totalWeeks = 1`, so the walk start cell (20, 5) has no in-bounds move and the
walk is trapped immediately with a single waypoint. -/
def days8 : List Day := (List.range 8).map (fun i => ⟨3 + (i : Int), 0⟩)

/-- Witness for C8 at the 8-day window: one waypoint is fewer than 4, the
dragon layer is empty, and the document still closes. -/
theorem short_walk_omits_dragon_witness :
    dragonLayer (renderWaypoints (⟨3, 0⟩ :: days8.tail) (fun _ => 0)) = [] ∧
    (renderDoc [] [] (⟨3, 0⟩ :: days8.tail) (fun _ => 0) 2026).getLast?
      = some "</svg>" :=
  short_walk_omits_dragon [] [] ⟨3, 0⟩ days8.tail (fun _ => 0) 2026 (by decide)

/-- The record built by `parseArgs`, with its defaults. -/
structure ParsedArgs where
  username : String
  output : String
  duration : String
deriving DecidableEq

/-- The argument loop of `parseArgs` over `process.argv.slice(2)`:
`key = args[i]`, `val = args[i + 1]`; a falsy `val` (absent, or the empty
string) means `continue` (advance by one); a matched key consumes its value
(advance by two); an unmatched key advances by one. -/
def parseArgsLoop : List String → ParsedArgs → ParsedArgs
  | [], p => p
  | [_], p => p
  | key :: val :: rest, p =>
    if val = "" then parseArgsLoop (val :: rest) p
    else if key = "--username" then parseArgsLoop rest { p with username := val }
    else if key = "--output" then parseArgsLoop rest { p with output := val }
    else if key = "--duration" ∧ (val = "half-year" ∨ val = "full-year") then
      parseArgsLoop rest { p with duration := val }
    else parseArgsLoop (val :: rest) p

/-- `parseArgs`: defaults, the loop, then the fatal check
`if (!parsed.username) throw new Error("Missing --username")`. -/
def parseArgs (args : List String) : Except String ParsedArgs :=
  let p := parseArgsLoop args ⟨"", "assets/cny_metrics.svg", "full-year"⟩
  if p.username = "" then Except.error "Missing --username" else Except.ok p

/-- The final guard of `fetchContributions`: with the date→count pairs already
extracted from the fetched page (the network fetch and the regex extraction
are I/O at the ingestion boundary, abstracted as the `result` input),
an empty extraction throws `"No contribution data parsed"`. -/
def contributionsCheck (result : List (String × Nat)) :
    Except String (List (String × Nat)) :=
  if result.length = 0 then Except.error "No contribution data parsed"
  else Except.ok result

/-- The error path of `main`: `parseArgs` then the ingestion check, each
performed once (no retry exists in the source); any thrown error propagates
to the single top-level `main().catch` handler. -/
def mainRun (argv : List String) (fetched : List (String × Nat)) :
    Except String (List (String × Nat)) :=
  match parseArgs argv with
  | Except.error e => Except.error e
  | Except.ok _ => contributionsCheck fetched

/-- `main().catch(e => { console.error(e); process.exit(1) })`: any error
yields exit code 1, success exit code 0. -/
def mainExitCode (argv : List String) (fetched : List (String × Nat)) : Nat :=
  match mainRun argv fetched with
  | Except.error _ => 1
  | Except.ok _ => 0

/-- When `--username` never occurs among the arguments, the loop leaves the
username at its empty default. -/
theorem parseArgsLoop_username_eq :
    ∀ (args : List String) (p : ParsedArgs), "--username" ∉ args →
      (parseArgsLoop args p).username = p.username
  | [], _, _ => rfl
  | [_], _, _ => rfl
  | key :: val :: rest, p, h => by
    have hk : key ≠ "--username" := fun he => h (he ▸ List.mem_cons_self _ _)
    have hv : "--username" ∉ val :: rest := fun hm => h (List.mem_cons_of_mem _ hm)
    have hrest : "--username" ∉ rest := fun hm => hv (List.mem_cons_of_mem _ hm)
    rw [parseArgsLoop]
    split_ifs
    all_goals first
      | exact parseArgsLoop_username_eq (val :: rest) p hv
      | exact (parseArgsLoop_username_eq rest _ hrest).trans rfl

/-- Claim C9: a missing `--username` makes `parseArgs` throw the fatal
configuration error; a zero-date extraction makes `fetchContributions` throw
its descriptive message; in either case the process (whose single top-level
catch never retries) exits with the non-zero code 1. -/
theorem config_ingestion_errors_fatal (argv : List String)
    (fetched : List (String × Nat))
    (h : "--username" ∉ argv ∨ fetched = []) :
    mainExitCode argv fetched = 1 ∧
    ("--username" ∉ argv → parseArgs argv = Except.error "Missing --username") ∧
    (fetched = [] → contributionsCheck fetched
      = Except.error "No contribution data parsed") := by
  have hpa : "--username" ∉ argv → parseArgs argv = Except.error "Missing --username" := by
    intro hn
    rw [parseArgs]
    rw [if_pos (parseArgsLoop_username_eq argv _ hn)]
  have hcc : fetched = [] → contributionsCheck fetched
      = Except.error "No contribution data parsed" := by
    intro hf
    rw [hf, contributionsCheck]
    rfl
  refine ⟨?_, hpa, hcc⟩
  rcases h with hn | hf
  · simp only [mainExitCode, mainRun, hpa hn]
  · simp only [mainExitCode, mainRun]
    rcases hp : parseArgs argv with e | v
    · rfl
    · rw [hcc hf]

/-- Witness for C9: the empty invocation (no arguments, empty extraction). -/
theorem config_ingestion_errors_fatal_witness :
    mainExitCode [] [] = 1 ∧
    ("--username" ∉ ([] : List String) →
      parseArgs [] = Except.error "Missing --username") ∧
    (([] : List (String × Nat)) = [] → contributionsCheck []
      = Except.error "No contribution data parsed") :=
  config_ingestion_errors_fatal [] [] (Or.inl (List.not_mem_nil _))

/-- The streak fold of `stats` keeps `current ≤ best`. -/
theorem streak_fold_le (days : List Day) :
    ∀ p : Nat × Nat, p.1 ≤ p.2 → (days.foldl streakStep p).1 ≤ (days.foldl streakStep p).2 := by
  induction days with
  | nil => exact fun p hp => hp
  | cons d rest ih =>
    intro p hp
    simp only [List.foldl_cons]
    apply ih
    simp only [streakStep]
    split
    · exact Nat.le_max_right _ _
    · exact Nat.zero_le _

/-- Claim C10: for every input day list, `stats` returns streaks with
`best ≥ current ≥ 0`. -/
theorem best_streak_ge_current (days : List Day) :
    (stats days).current ≤ (stats days).best ∧ 0 ≤ (stats days).current := by
  refine ⟨?_, Nat.zero_le _⟩
  simpa [stats] using streak_fold_le days (0, 0) (Nat.le_refl 0)

end Cny
